import Mathlib

/-!
Verification of the kauldron shape-spec language
(`src/kauldron/typing/shape_spec.py`).

The development shallowly embeds the parser, the expression-tree data
model, the evaluator and the canonical printer of the shape-spec
language.  Python integers are modelled as `Int`; Python floats (which
arise only from `/`, float-typed `//`/`%`, and negative powers, always
on values that are exactly representable here) are modelled as exact
rationals tagged with a `float` constructor so that the `int`/`float`
type distinction of the runtime is preserved.  Fallible operations
return `Except String`, the message mirroring the text the source
formats into the raised exception.
-/

namespace Kauldron

/-- The `_Priority` IntEnum of the source (`enum.auto`, so
ADD=1, MUL=2, POW=3, UNARY=4, ATOM=5). -/
def Priority.ADD : Nat := 1

def Priority.MUL : Nat := 2

def Priority.POW : Nat := 3

def Priority.UNARY : Nat := 4

def Priority.ATOM : Nat := 5

/-- The seven entries of the `OPERATORS` table. -/
inductive Op where
  | add
  | sub
  | mul
  | truediv
  | floordiv
  | mod
  | pow
deriving DecidableEq

/-- `Operator.symbol` of each `OPERATORS` entry. -/
def Op.symbol : Op → String
  | .add => "+"
  | .sub => "-"
  | .mul => "*"
  | .truediv => "/"
  | .floordiv => "//"
  | .mod => "%"
  | .pow => "**"

/-- `Operator.priority` of each `OPERATORS` entry. -/
def Op.priority : Op → Nat
  | .add => Priority.ADD
  | .sub => Priority.ADD
  | .mul => Priority.MUL
  | .truediv => Priority.MUL
  | .floordiv => Priority.MUL
  | .mod => Priority.MUL
  | .pow => Priority.POW

/-- A Python number as produced by evaluating a dim expression: either an
`int` or a `float`.  Floats are modelled as exact rationals (every float
the claims exercise is exactly representable). -/
inductive PyVal where
  | int (n : Int)
  | float (q : Rat)
deriving DecidableEq

/-- Numeric value of a `PyVal`. -/
def PyVal.toRat : PyVal → Rat
  | .int n => (n : Rat)
  | .float q => q

/-- Python `+` on numbers: int+int is int, anything with a float is float. -/
def pyAdd : PyVal → PyVal → PyVal
  | .int a, .int b => .int (a + b)
  | a, b => .float (a.toRat + b.toRat)

/-- Python `-` on numbers. -/
def pySub : PyVal → PyVal → PyVal
  | .int a, .int b => .int (a - b)
  | a, b => .float (a.toRat - b.toRat)

/-- Python `*` on numbers. -/
def pyMul : PyVal → PyVal → PyVal
  | .int a, .int b => .int (a * b)
  | a, b => .float (a.toRat * b.toRat)

/-- Python unary `-` on numbers. -/
def pyNeg : PyVal → PyVal
  | .int n => .int (-n)
  | .float q => .float (-q)

/-- Python `**`.  An integer exponent is computed exactly; a float
exponent with a fractional part would produce an irrational float, which
the exact-rational model cannot represent, so it reports an error (no
construct of the claims reaches that case). -/
def pyPow : PyVal → PyVal → Except String PyVal
  | a, b =>
    let q := PyVal.toRat b
    if q.den = 1 then
      if 0 ≤ q.num then
        match a, b with
        | .int x, .int _ => .ok (.int (x ^ q.num.toNat))
        | .int x, .float _ => .ok (.float ((x : Rat) ^ q.num.toNat))
        | .float r, _ => .ok (.float (r ^ q.num.toNat))
      else
        if PyVal.toRat a = 0 then
          .error "ZeroDivisionError: zero raised to a negative power"
        else .ok (.float (PyVal.toRat a ^ q.num))
    else .error "model limitation: non-integer exponent"

/-- `Operator.fn` of each `OPERATORS` entry (`operator.add`, `operator.sub`,
`operator.mul`, `operator.truediv`, `operator.floordiv`, `operator.mod`,
`operator.pow` on Python numbers).  `Int.fdiv`/`Int.fmod` match Python's
floored `//` and sign-of-divisor `%`. -/
def Op.fn : Op → PyVal → PyVal → Except String PyVal
  | .add, a, b => .ok (pyAdd a b)
  | .sub, a, b => .ok (pySub a b)
  | .mul, a, b => .ok (pyMul a b)
  | .truediv, a, b =>
    if b.toRat = 0 then .error "ZeroDivisionError: division by zero"
    else .ok (.float (a.toRat / b.toRat))
  | .floordiv, a, b =>
    if b.toRat = 0 then .error "ZeroDivisionError: integer floor division by zero"
    else
      match a, b with
      | .int x, .int y => .ok (.int (Int.fdiv x y))
      | a, b => .ok (.float ((Rat.floor (a.toRat / b.toRat) : Int) : Rat))
  | .mod, a, b =>
    if b.toRat = 0 then .error "ZeroDivisionError: modulo by zero"
    else
      match a, b with
      | .int x, .int y => .ok (.int (Int.fmod x y))
      | a, b =>
        .ok (.float (a.toRat - b.toRat * ((Rat.floor (a.toRat / b.toRat) : Int) : Rat)))
  | .pow, a, b => pyPow a b

/-- The expression-tree node variants of the source: `IntDim`, `SingleDim`,
`VariadicDim`, `FunctionDim`, `BinaryOpDim`, `NegDim`.  Field order follows
the Python dataclasses. -/
inductive DimSpec where
  | intDim (value : Int) (broadcastable : Bool)
  | singleDim (name : Option String) (broadcastable : Bool) (anonymous : Bool)
  | variadicDim (name : Option String) (anonymous : Bool) (broadcastable : Bool)
  | functionDim (name : String) (arguments : List DimSpec)
  | binaryOpDim (op : Op) (left : DimSpec) (right : DimSpec)
  | negDim (child : DimSpec)

/-- `DimSpec.priority`: the base-class property returns ATOM; `BinaryOpDim`
overrides with its operator's priority and `NegDim` with UNARY. -/
def DimSpec.priority : DimSpec → Nat
  | .binaryOpDim op _ _ => op.priority
  | .negDim _ => Priority.UNARY
  | _ => Priority.ATOM

mutual

/-- The `__repr__` of every node variant, verbatim from the source
(including the `"_"` prefix `IntDim.__repr__` uses for broadcastable int
dims).  A `None` name renders as the empty string, as in
`SingleDim.__repr__`; the parser never produces the variadic shapes for
which the Python string concatenation would fail on `None`. -/
def DimSpec.repr : DimSpec → String
  | .intDim v b => (if b then "_" else "") ++ toString v
  | .singleDim name b a =>
    (if b then "#" else "") ++ (if a then "_" else "") ++ name.getD ""
  | .variadicDim name a b =>
    if a then "..."
    else if b then "*#" ++ name.getD ""
    else "*" ++ name.getD ""
  | .functionDim name args =>
    name ++ "(" ++ String.intercalate "," (reprList args) ++ ")"
  | .binaryOpDim op l r =>
    (if op.priority < l.priority then DimSpec.repr l
     else "(" ++ DimSpec.repr l ++ ")")
      ++ op.symbol
      ++ (if op.priority < r.priority then DimSpec.repr r
          else "(" ++ DimSpec.repr r ++ ")")
  | .negDim c =>
    if Priority.UNARY < c.priority then "-" ++ DimSpec.repr c
    else "-(" ++ DimSpec.repr c ++ ")"

/-- `repr` mapped over a list of nodes (the argument list of a
`FunctionDim`). -/
def reprList : List DimSpec → List String
  | [] => []
  | d :: ds => DimSpec.repr d :: reprList ds

end

/-- The parsed shape spec: an ordered sequence of dim specs. -/
structure ShapeSpec where
  dim_specs : List DimSpec

/-- `ShapeSpec.__repr__`: the dims joined with single spaces. -/
def ShapeSpec.repr (s : ShapeSpec) : String :=
  String.intercalate " " (s.dim_specs.map DimSpec.repr)

/-- The `Memo` of the source: the two caller-supplied mappings, modelled
as association lists (Python dict keys are unique; lookup finds the
first matching key). -/
structure Memo where
  single : List (String × Int)
  variadic : List (String × List Int)

/-- Insert a string into an already sorted list (code-point order, as
Python `sorted` on `str`). -/
def insertSorted (s : String) : List String → List String
  | [] => [s]
  | t :: ts => if s ≤ t then s :: t :: ts else t :: insertSorted s ts

/-- `sorted(...)` on a list of strings. -/
def sortStrings (l : List String) : List String :=
  l.foldr insertSorted []

/-- Python `repr` of a list of strings, as interpolated into the
"Known values are: ..." messages: `[]`, or `[\x27a\x27, \x27b\x27]`. -/
def pyStrListRepr (l : List String) : String :=
  "[" ++ String.intercalate ", " (l.map (fun s => "\x27" ++ s ++ "\x27")) ++ "]"

/-- `sum` over the flattened values (Python `sum`, start 0). -/
def pySum (l : List PyVal) : PyVal :=
  l.foldl pyAdd (.int 0)

/-- `math.prod` over the flattened values (start 1). -/
def pyProd (l : List PyVal) : PyVal :=
  l.foldl pyMul (.int 1)

/-- Python `min` over a sequence: error on empty, first minimum otherwise. -/
def pyMin : List PyVal → Except String PyVal
  | [] => .error "ValueError: min() arg is an empty sequence"
  | v :: vs => .ok (vs.foldl (fun acc x => if x.toRat < acc.toRat then x else acc) v)

/-- Python `max` over a sequence: error on empty, first maximum otherwise. -/
def pyMax : List PyVal → Except String PyVal
  | [] => .error "ValueError: max() arg is an empty sequence"
  | v :: vs => .ok (vs.foldl (fun acc x => if acc.toRat < x.toRat then x else acc) v)

/-- The `NAME_2_FUNC` table: `{"sum": sum, "min": min, "max": max,
"prod": math.prod}`. -/
def NAME_2_FUNC : String → Option (List PyVal → Except String PyVal)
  | "sum" => some (fun l => .ok (pySum l))
  | "min" => some pyMin
  | "max" => some pyMax
  | "prod" => some (fun l => .ok (pyProd l))
  | _ => none

mutual

/-- The `evaluate` of every node variant, verbatim from the source.
`BinaryOpDim` unpacks each operand's result tuple (`(left,) = ...`),
erroring unless it has exactly one element; `NegDim` instead indexes
`[0]` (error on empty, silent truncation otherwise); `FunctionDim`
chains its arguments' results and applies the `NAME_2_FUNC` reducer. -/
def DimSpec.evaluate : DimSpec → Memo → Except String (List PyVal)
  | .intDim v b, _ =>
    if b then
      .error ("Cannot evaluate a broadcastable dim: " ++ DimSpec.repr (.intDim v b))
    else .ok [.int v]
  | .singleDim name b a, memo =>
    if a then
      .error ("Cannot evaluate anonymous dimension: "
        ++ DimSpec.repr (.singleDim name b a))
    else if b then
      .error ("Cannot evaluate a broadcastable dimension: "
        ++ DimSpec.repr (.singleDim name b a))
    else
      match name.bind (fun n => memo.single.lookup n) with
      | some v => .ok [.int v]
      | none =>
        .error ("No value known for " ++ DimSpec.repr (.singleDim name b a)
          ++ ". Known values are: "
          ++ pyStrListRepr (sortStrings (memo.single.map Prod.fst)))
  | .variadicDim name a b, memo =>
    if a then
      .error ("Cannot evaluate anonymous dimension: "
        ++ DimSpec.repr (.variadicDim name a b))
    else if b then
      .error ("Cannot evaluate a broadcastable variadic dimension: "
        ++ DimSpec.repr (.variadicDim name a b))
    else
      match name.bind (fun n => memo.variadic.lookup n) with
      | some t => .ok (t.map PyVal.int)
      | none =>
        .error ("No value known for " ++ DimSpec.repr (.variadicDim name a b)
          ++ ". Known values are: "
          ++ pyStrListRepr (sortStrings (memo.variadic.map Prod.fst)))
  | .functionDim name args, memo =>
    match evalChain args memo with
    | .error e => .error e
    | .ok vals =>
      match NAME_2_FUNC name with
      | none => .error ("KeyError: " ++ name)
      | some f =>
        match f vals with
        | .error e => .error e
        | .ok v => .ok [v]
  | .binaryOpDim op l r, memo =>
    match DimSpec.evaluate l memo with
    | .error e => .error e
    | .ok [x] =>
      match DimSpec.evaluate r memo with
      | .error e => .error e
      | .ok [y] =>
        match op.fn x y with
        | .error e => .error e
        | .ok v => .ok [v]
      | .ok _ => .error "ValueError: operand does not unpack to exactly one value"
    | .ok _ => .error "ValueError: operand does not unpack to exactly one value"
  | .negDim c, memo =>
    match DimSpec.evaluate c memo with
    | .error e => .error e
    | .ok [] => .error "IndexError: tuple index out of range"
    | .ok (v :: _) => .ok [pyNeg v]

/-- `itertools.chain.from_iterable` over the evaluations of a list of
nodes, in order (used both by `ShapeSpec.evaluate` and by
`FunctionDim.evaluate`). -/
def evalChain : List DimSpec → Memo → Except String (List PyVal)
  | [], _ => .ok []
  | d :: ds, memo =>
    match DimSpec.evaluate d memo with
    | .error e => .error e
    | .ok vs =>
      match evalChain ds memo with
      | .error e => .error e
      | .ok rest => .ok (vs ++ rest)

end

/-- `ShapeSpec.evaluate`: the in-order concatenation of each dim's
result. -/
def ShapeSpec.evaluate (s : ShapeSpec) (memo : Memo) : Except String (List PyVal) :=
  evalChain s.dim_specs memo

/-!
The parser: a recursive-descent translation of the Lark grammar
`shape_spec: (_WS_INLINE* dim_spec)? (_WS_INLINE+ dim_spec)*` with the
expression levels expr / term / unary / power / atom, the `var_dim` and
`other_dim` forms, and the `arg_list` rule.  Tokens follow the grammar's
terminals: `NAME` is a letter followed by letters/digits/underscores,
`INT` is a digit run, `_WS_INLINE` is spaces/tabs, and the two-character
operators `**` and `//` take precedence over `*` and `/` (longest
match).  The functions are fueled to make termination structural; the
fuel passed by `parse_shape_spec` is ample for any input of the given
length. -/

/-- `LETTER` of the grammar (ASCII letters). -/
def isLetterChar (c : Char) : Bool := c.isAlpha

/-- A continuation character of `NAME`: letter, digit or underscore. -/
def isNameChar (c : Char) : Bool := c.isAlpha || c.isDigit || c == '_'

/-- `_WS_INLINE`: space or tab. -/
def isWSChar (c : Char) : Bool := c == ' ' || c == '\t'

/-- Scan a `NAME` token. -/
def takeNameChars : List Char → Option (String × List Char)
  | [] => none
  | c :: cs =>
    if isLetterChar c then
      some (String.mk (c :: cs.takeWhile isNameChar), cs.dropWhile isNameChar)
    else none

/-- Decimal value of a digit run. -/
def digitsToNat (ds : List Char) : Nat :=
  ds.foldl (fun n c => 10 * n + (c.toNat - 48)) 0

/-- Scan an `INT` token. -/
def takeIntChars (cs : List Char) : Option (Int × List Char) :=
  let ds := cs.takeWhile Char.isDigit
  if ds.isEmpty then none
  else some ((digitsToNat ds : Int), cs.dropWhile Char.isDigit)

/-- The `FUNC` terminal: `"min" | "max" | "sum" | "prod"`. -/
def funcNames : List String := ["min", "max", "sum", "prod"]

/-- `var_dim: "*" NAME`, built by the `var_dim` transformer rule. -/
def pVarDim : List Char → Option (DimSpec × List Char)
  | '*' :: cs =>
    match takeNameChars cs with
    | some (n, rest) => some (.variadicDim (some n) false false, rest)
    | none => none
  | _ => none

mutual

/-- `?expr: term | term SUM_OP expr` (note: sum is right-recursive in the
grammar). -/
def pExpr : Nat → List Char → Option (DimSpec × List Char)
  | 0, _ => none
  | fuel + 1, cs =>
    match pTerm fuel cs with
    | none => none
    | some (t, cs1) =>
      match cs1 with
      | '+' :: cs2 =>
        match pExpr fuel cs2 with
        | some (e, cs3) => some (.binaryOpDim .add t e, cs3)
        | none => some (t, cs1)
      | '-' :: cs2 =>
        match pExpr fuel cs2 with
        | some (e, cs3) => some (.binaryOpDim .sub t e, cs3)
        | none => some (t, cs1)
      | _ => some (t, cs1)

/-- `?term: unary | unary MUL_OP term`; `**` is a POW_OP, never a MUL_OP,
and `//` outranks `/` by longest match. -/
def pTerm : Nat → List Char → Option (DimSpec × List Char)
  | 0, _ => none
  | fuel + 1, cs =>
    match pUnary fuel cs with
    | none => none
    | some (u, cs1) =>
      match cs1 with
      | '*' :: '*' :: _ => some (u, cs1)
      | '*' :: cs2 =>
        match pTerm fuel cs2 with
        | some (t, cs3) => some (.binaryOpDim .mul u t, cs3)
        | none => some (u, cs1)
      | '/' :: '/' :: cs2 =>
        match pTerm fuel cs2 with
        | some (t, cs3) => some (.binaryOpDim .floordiv u t, cs3)
        | none => some (u, cs1)
      | '/' :: cs2 =>
        match pTerm fuel cs2 with
        | some (t, cs3) => some (.binaryOpDim .truediv u t, cs3)
        | none => some (u, cs1)
      | '%' :: cs2 =>
        match pTerm fuel cs2 with
        | some (t, cs3) => some (.binaryOpDim .mod u t, cs3)
        | none => some (u, cs1)
      | _ => some (u, cs1)

/-- `?unary: power | "-" unary`. -/
def pUnary : Nat → List Char → Option (DimSpec × List Char)
  | 0, _ => none
  | fuel + 1, cs =>
    match cs with
    | '-' :: cs1 =>
      match pUnary fuel cs1 with
      | some (u, cs2) => some (.negDim u, cs2)
      | none => none
    | _ => pPower fuel cs

/-- `?power: atom | atom POW_OP unary`. -/
def pPower : Nat → List Char → Option (DimSpec × List Char)
  | 0, _ => none
  | fuel + 1, cs =>
    match pAtom fuel cs with
    | none => none
    | some (a, cs1) =>
      match cs1 with
      | '*' :: '*' :: cs2 =>
        match pUnary fuel cs2 with
        | some (u, cs3) => some (.binaryOpDim .pow a u, cs3)
        | none => some (a, cs1)
      | _ => some (a, cs1)

/-- `?atom: INT | NAME | "(" expr ")" | FUNC "(" arg_list ")"`.  A `FUNC`
word not followed by a well-formed parenthesized argument list falls
back to the `NAME` alternative, as the Earley parser of the source
would. -/
def pAtom : Nat → List Char → Option (DimSpec × List Char)
  | 0, _ => none
  | fuel + 1, cs =>
    match cs with
    | [] => none
    | '(' :: cs1 =>
      match pExpr fuel cs1 with
      | some (e, ')' :: cs2) => some (e, cs2)
      | _ => none
    | c :: _ =>
      if c.isDigit then
        match takeIntChars cs with
        | some (n, rest) => some (.intDim n false, rest)
        | none => none
      else
        match takeNameChars cs with
        | none => none
        | some (name, rest) =>
          if funcNames.contains name then
            match rest with
            | '(' :: cs1 =>
              match pArgList fuel cs1 with
              | some (args, ')' :: cs2) => some (.functionDim name args, cs2)
              | _ => some (.singleDim (some name) false false, rest)
            | _ => some (.singleDim (some name) false false, rest)
          else some (.singleDim (some name) false false, rest)

/-- One argument of an `arg_list`: `expr | var_dim`. -/
def pArg : Nat → List Char → Option (DimSpec × List Char)
  | 0, _ => none
  | fuel + 1, cs =>
    match cs with
    | '*' :: _ => pVarDim cs
    | _ => pExpr fuel cs

/-- `?arg_list: expr ("," (expr | var_dim))+ | var_dim ("," (expr |
var_dim))*`: a leading plain expression requires at least one further
argument; a leading variadic dim does not. -/
def pArgList : Nat → List Char → Option (List DimSpec × List Char)
  | 0, _ => none
  | fuel + 1, cs =>
    match cs with
    | '*' :: _ =>
      match pVarDim cs with
      | none => none
      | some (d, cs1) =>
        match pArgTail fuel cs1 with
        | some (ds, cs2) => some (d :: ds, cs2)
        | none => none
    | _ =>
      match pExpr fuel cs with
      | some (e, ',' :: cs1) =>
        match pArg fuel cs1 with
        | none => none
        | some (d2, cs2) =>
          match pArgTail fuel cs2 with
          | some (ds, cs3) => some (e :: d2 :: ds, cs3)
          | none => none
      | _ => none

/-- Zero or more `"," (expr | var_dim)` continuations. -/
def pArgTail : Nat → List Char → Option (List DimSpec × List Char)
  | 0, _ => none
  | fuel + 1, cs =>
    match cs with
    | ',' :: cs1 =>
      match pArg fuel cs1 with
      | none => some ([], cs)
      | some (d, cs2) =>
        match pArgTail fuel cs2 with
        | some (ds, cs3) => some (d :: ds, cs3)
        | none => some ([], cs)
    | _ => some ([], cs)

end

/-- `?dim_spec: expr | var_dim | other_dim`, with the `other_dim`
alternatives `anon_dim`, `anon_var_dim`, `broadcast_dim` and
`broadcast_var_dim` and their transformer rules (`broadcast_dim` tries
`int(...)` first, falling back to a named dim). -/
def pDimSpec (fuel : Nat) (cs : List Char) : Option (DimSpec × List Char) :=
  match cs with
  | '_' :: cs1 =>
    match takeNameChars cs1 with
    | some (n, rest) => some (.singleDim (some n) false true, rest)
    | none => some (.singleDim none false true, cs1)
  | '.' :: '.' :: '.' :: rest => some (.variadicDim none true false, rest)
  | '#' :: '*' :: cs1 =>
    match takeNameChars cs1 with
    | some (n, rest) => some (.variadicDim (some n) false true, rest)
    | none => none
  | '#' :: cs1 =>
    match takeIntChars cs1 with
    | some (v, rest) => some (.intDim v true, rest)
    | none =>
      match takeNameChars cs1 with
      | some (n, rest) => some (.singleDim (some n) true false, rest)
      | none => none
  | '*' :: '#' :: cs1 =>
    match takeNameChars cs1 with
    | some (n, rest) => some (.variadicDim (some n) false true, rest)
    | none => none
  | '*' :: '_' :: cs1 =>
    match takeNameChars cs1 with
    | some (n, rest) => some (.variadicDim (some n) true false, rest)
    | none => some (.variadicDim none true false, cs1)
  | '*' :: cs1 =>
    match takeNameChars cs1 with
    | some (n, rest) => some (.variadicDim (some n) false false, rest)
    | none => none
  | _ => pExpr fuel cs

/-- The whitespace-separated dim-spec list of the `shape_spec` rule: after
each dim there is either the end of input or at least one inline
whitespace character followed by another dim. -/
def pDims : Nat → List Char → Option (List DimSpec)
  | 0, _ => none
  | fuel + 1, cs =>
    match pDimSpec fuel cs with
    | none => none
    | some (d, rest) =>
      match rest with
      | [] => some [d]
      | c :: _ =>
        if isWSChar c then
          let rest2 := rest.dropWhile isWSChar
          if rest2.isEmpty then none
          else
            match pDims fuel rest2 with
            | some ds => some (d :: ds)
            | none => none
        else none

/-- `parse_shape_spec`: parse the spec string and build the `ShapeSpec`
(the source's `shape_parser.parse` followed by the
`ShapeSpecTransformer`).  A failure is the syntax-error kind, distinct
from evaluation errors by construction. -/
def parse_shape_spec (s : String) : Except String ShapeSpec :=
  let cs := s.data
  let cs1 := cs.dropWhile isWSChar
  if cs1.isEmpty then
    if cs.isEmpty then .ok (ShapeSpec.mk [])
    else .error ("Syntax error in shape spec: " ++ s)
  else
    match pDims (6 * (cs.length + 1)) cs1 with
    | some ds => .ok (ShapeSpec.mk ds)
    | none => .error ("Syntax error in shape spec: " ++ s)

/-- Whether a parse succeeded. -/
def parseOk (r : Except String ShapeSpec) : Bool :=
  match r with
  | .ok _ => true
  | .error _ => false

/-- Parse, then evaluate against an explicit memo — the composition
`Shape.__new__` performs (with the memo taken from the typechecking
context there, supplied explicitly here). -/
def evalSpec (s : String) (memo : Memo) : Except String (List PyVal) :=
  match parse_shape_spec s with
  | .ok sp => sp.evaluate memo
  | .error e => .error e

/-!  Theorems about the claims. -/

/-- Claim C1: the round-trip law fails on the code.  `parse("#3")` yields a
broadcastable `IntDim 3`, but `IntDim.__repr__` prefixes broadcastable
int dims with `"_"` (the anonymous marker) instead of the grammar's
`"#"`, so its string form `"_3"` is not grammar-representable at all and
re-parsing it raises a syntax error.  Likewise, a named anonymous
variadic dim `"*_b"` reprints as `"..."`, which re-parses to a tree with
the name dropped, not a structurally equal one. -/
theorem c1_roundtrip_fails_for_broadcastable_int :
    parse_shape_spec "#3" = .ok (ShapeSpec.mk [.intDim 3 true]) ∧
    ShapeSpec.repr (ShapeSpec.mk [.intDim 3 true]) = "_3" ∧
    parseOk (parse_shape_spec "_3") = false ∧
    parse_shape_spec "*_b" = .ok (ShapeSpec.mk [.variadicDim (some "b") true false]) ∧
    ShapeSpec.repr (ShapeSpec.mk [.variadicDim (some "b") true false]) = "..." ∧
    parse_shape_spec "..." = .ok (ShapeSpec.mk [.variadicDim none true false]) :=
  ⟨rfl, rfl, rfl, rfl, rfl, rfl⟩

/-- Claim C2 counterexample: the claim says operands of priority equal to the
node's are printed without parentheses.  But `"a+b+c"` parses (sums are
right-recursive) to `a+(b+c)` whose right operand has priority equal to
the node's own (both ADD), and the printer wraps it: the repr is
`"a+(b+c)"`, with parentheses. -/
theorem c2_counterexample_equal_priority_is_parenthesized :
    parse_shape_spec "a+b+c" = .ok (ShapeSpec.mk [.binaryOpDim .add
      (.singleDim (some "a") false false)
      (.binaryOpDim .add (.singleDim (some "b") false false)
        (.singleDim (some "c") false false))]) ∧
    DimSpec.priority (.binaryOpDim .add (.singleDim (some "b") false false)
      (.singleDim (some "c") false false)) = Op.priority .add ∧
    DimSpec.repr (.binaryOpDim .add (.singleDim (some "a") false false)
      (.binaryOpDim .add (.singleDim (some "b") false false)
        (.singleDim (some "c") false false))) = "a+(b+c)" :=
  ⟨rfl, rfl, rfl⟩

/-- Claim C2 amended: a `BinaryOpDim` or `NegDim` wraps an operand in
parentheses exactly when the operand's priority is lower than **or equal
to** the node's own priority; only strictly higher-priority operands are
printed bare. -/
theorem c2_parenthesize_on_equal_or_lower_priority :
    (∀ (op : Op) (l r : DimSpec),
        DimSpec.repr (.binaryOpDim op l r)
          = (if l.priority ≤ op.priority then "(" ++ DimSpec.repr l ++ ")"
             else DimSpec.repr l)
            ++ op.symbol
            ++ (if r.priority ≤ op.priority then "(" ++ DimSpec.repr r ++ ")"
                else DimSpec.repr r)) ∧
    (∀ c : DimSpec,
        DimSpec.repr (.negDim c)
          = if c.priority ≤ Priority.UNARY then "-(" ++ DimSpec.repr c ++ ")"
            else "-" ++ DimSpec.repr c) := by
  constructor
  · intro op l r
    rw [DimSpec.repr]
    rcases Nat.lt_or_ge op.priority l.priority with h1 | h1 <;>
      rcases Nat.lt_or_ge op.priority r.priority with h2 | h2 <;>
        simp [h1, h2, Nat.not_lt.mpr, Nat.le_of_lt, if_neg, if_pos]
  · intro c
    rw [DimSpec.repr]
    rcases Nat.lt_or_ge Priority.UNARY c.priority with h | h
    · rw [if_pos h, if_neg (Nat.not_le.mpr h)]
    · rw [if_neg (Nat.not_lt.mpr h), if_pos h]

/-- Claim C3: a `FunctionDim` evaluates its arguments left to right, chains the
result tuples into one flat sequence, applies the reducer named by
`NAME_2_FUNC`, and wraps the result as a one-element tuple; in
particular `sum(a,*b)` with `a=1, b=(2,3)` gives `(6,)` and
`prod(2,3,4)` gives `(24,)`. -/
theorem c3_function_evaluation :
    (∀ memo : Memo, evalChain [] memo = .ok []) ∧
    (∀ (d : DimSpec) (ds : List DimSpec) (memo : Memo),
        evalChain (d :: ds) memo
          = (DimSpec.evaluate d memo).bind
              (fun vs => (evalChain ds memo).map (fun rest => vs ++ rest))) ∧
    (∀ (args : List DimSpec) (memo : Memo),
        DimSpec.evaluate (.functionDim "sum" args) memo
          = (evalChain args memo).map (fun vals => [pySum vals])) ∧
    (∀ (args : List DimSpec) (memo : Memo),
        DimSpec.evaluate (.functionDim "prod" args) memo
          = (evalChain args memo).map (fun vals => [pyProd vals])) ∧
    (∀ (args : List DimSpec) (memo : Memo),
        DimSpec.evaluate (.functionDim "min" args) memo
          = (evalChain args memo).bind
              (fun vals => (pyMin vals).map (fun v => [v]))) ∧
    (∀ (args : List DimSpec) (memo : Memo),
        DimSpec.evaluate (.functionDim "max" args) memo
          = (evalChain args memo).bind
              (fun vals => (pyMax vals).map (fun v => [v]))) ∧
    evalSpec "sum(a,*b)" (Memo.mk [("a", 1)] [("b", [2, 3])]) = .ok [.int 6] ∧
    evalSpec "prod(2,3,4)" (Memo.mk [] []) = .ok [.int 24] := by
  refine ⟨fun _ => rfl, ?_, ?_, ?_, ?_, ?_, rfl, rfl⟩
  · intro d ds memo
    cases h : DimSpec.evaluate d memo with
    | error e => simp [evalChain, h, Except.bind]
    | ok vs =>
      cases h2 : evalChain ds memo with
      | error e => simp [evalChain, h, h2, Except.bind, Except.map]
      | ok rest => simp [evalChain, h, h2, Except.bind, Except.map]
  · intro args memo
    cases h : evalChain args memo with
    | error e => simp [DimSpec.evaluate, h, Except.map]
    | ok vals =>
      simp [DimSpec.evaluate, h, Except.map,
        show NAME_2_FUNC "sum" = some (fun l => .ok (pySum l)) from rfl]
  · intro args memo
    cases h : evalChain args memo with
    | error e => simp [DimSpec.evaluate, h, Except.map]
    | ok vals =>
      simp [DimSpec.evaluate, h, Except.map,
        show NAME_2_FUNC "prod" = some (fun l => .ok (pyProd l)) from rfl]
  · intro args memo
    cases h : evalChain args memo with
    | error e => simp [DimSpec.evaluate, h, Except.bind]
    | ok vals =>
      cases h2 : pyMin vals with
      | error e =>
        simp [DimSpec.evaluate, h, h2, Except.bind, Except.map,
          show NAME_2_FUNC "min" = some pyMin from rfl]
      | ok v =>
        simp [DimSpec.evaluate, h, h2, Except.bind, Except.map,
          show NAME_2_FUNC "min" = some pyMin from rfl]
  · intro args memo
    cases h : evalChain args memo with
    | error e => simp [DimSpec.evaluate, h, Except.bind]
    | ok vals =>
      cases h2 : pyMax vals with
      | error e =>
        simp [DimSpec.evaluate, h, h2, Except.bind, Except.map,
          show NAME_2_FUNC "max" = some pyMax from rfl]
      | ok v =>
        simp [DimSpec.evaluate, h, h2, Except.bind, Except.map,
          show NAME_2_FUNC "max" = some pyMax from rfl]

/-- Claim C4: `ShapeSpec.evaluate` is the in-order concatenation of each dim's
result; a bound scalar dim contributes one integer and a bound variadic
dim contributes its whole tuple; `"*b h"` with `b=(2,3), h=4` evaluates
to `(2,3,4)`. -/
theorem c4_variadic_concatenation :
    (∀ memo : Memo, ShapeSpec.evaluate (ShapeSpec.mk []) memo = .ok []) ∧
    (∀ (d : DimSpec) (ds : List DimSpec) (memo : Memo),
        ShapeSpec.evaluate (ShapeSpec.mk (d :: ds)) memo
          = (DimSpec.evaluate d memo).bind
              (fun vs =>
                (ShapeSpec.evaluate (ShapeSpec.mk ds) memo).map
                  (fun rest => vs ++ rest))) ∧
    (∀ (name : String) (memo : Memo) (v : Int),
        memo.single.lookup name = some v →
        DimSpec.evaluate (.singleDim (some name) false false) memo = .ok [.int v]) ∧
    (∀ (name : String) (memo : Memo) (t : List Int),
        memo.variadic.lookup name = some t →
        DimSpec.evaluate (.variadicDim (some name) false false) memo
          = .ok (t.map PyVal.int)) ∧
    evalSpec "*b h" (Memo.mk [("h", 4)] [("b", [2, 3])])
      = .ok [.int 2, .int 3, .int 4] := by
  refine ⟨fun _ => rfl, ?_, ?_, ?_, rfl⟩
  · intro d ds memo
    cases h : DimSpec.evaluate d memo with
    | error e => simp [ShapeSpec.evaluate, evalChain, h, Except.bind]
    | ok vs =>
      cases h2 : evalChain ds memo with
      | error e => simp [ShapeSpec.evaluate, evalChain, h, h2, Except.bind, Except.map]
      | ok rest => simp [ShapeSpec.evaluate, evalChain, h, h2, Except.bind, Except.map]
  · intro name memo v h
    simp [DimSpec.evaluate, h]
  · intro name memo t h
    simp [DimSpec.evaluate, h]

/-- Claim C4 witness: the scalar and variadic contribution laws instantiated at
concrete memos. -/
theorem c4_variadic_concatenation_witness :
    DimSpec.evaluate (.singleDim (some "h") false false) (Memo.mk [("h", 4)] [])
      = .ok [.int 4] ∧
    DimSpec.evaluate (.variadicDim (some "b") false false) (Memo.mk [] [("b", [2, 3])])
      = .ok [.int 2, .int 3] :=
  ⟨c4_variadic_concatenation.2.2.1 "h" (Memo.mk [("h", 4)] []) 4 rfl,
   c4_variadic_concatenation.2.2.2.1 "b" (Memo.mk [] [("b", [2, 3])]) [2, 3] rfl⟩

/-- Claim C5: anonymous dims (`_`, `_name`, `...`, `*_`, `*_name`) and
broadcastable dims (`#name`, `#int`, `#*name`, `*#name`) raise an
evaluation error under every memo — including memos that bind the
dim's name. -/
theorem c5_anonymous_and_broadcastable_refuse_evaluation :
    (∀ memo : Memo, evalSpec "_" memo
        = .error "Cannot evaluate anonymous dimension: _") ∧
    (∀ memo : Memo, evalSpec "_a" memo
        = .error "Cannot evaluate anonymous dimension: _a") ∧
    (∀ memo : Memo, evalSpec "..." memo
        = .error "Cannot evaluate anonymous dimension: ...") ∧
    (∀ memo : Memo, evalSpec "*_" memo
        = .error "Cannot evaluate anonymous dimension: ...") ∧
    (∀ memo : Memo, evalSpec "*_x" memo
        = .error "Cannot evaluate anonymous dimension: ...") ∧
    (∀ memo : Memo, evalSpec "#c" memo
        = .error "Cannot evaluate a broadcastable dimension: #c") ∧
    (∀ memo : Memo, evalSpec "#3" memo
        = .error "Cannot evaluate a broadcastable dim: _3") ∧
    (∀ memo : Memo, evalSpec "#*n" memo
        = .error "Cannot evaluate a broadcastable variadic dimension: *#n") ∧
    (∀ memo : Memo, evalSpec "*#n" memo
        = .error "Cannot evaluate a broadcastable variadic dimension: *#n") ∧
    evalSpec "#c" (Memo.mk [("c", 7)] [])
      = .error "Cannot evaluate a broadcastable dimension: #c" :=
  ⟨fun _ => rfl, fun _ => rfl, fun _ => rfl, fun _ => rfl, fun _ => rfl,
   fun _ => rfl, fun _ => rfl, fun _ => rfl, fun _ => rfl, rfl⟩

/-- Claim C6: with `a=1, b=2, c=3`, `"a+b*c"` evaluates to `(7,)` and
`"(a+b)*c"` to `(9,)`. -/
theorem c6_operator_precedence :
    evalSpec "a+b*c" (Memo.mk [("a", 1), ("b", 2), ("c", 3)] []) = .ok [.int 7] ∧
    evalSpec "(a+b)*c" (Memo.mk [("a", 1), ("b", 2), ("c", 3)] []) = .ok [.int 9] :=
  ⟨rfl, rfl⟩

/-- Claim C7: `min(a)` (a single non-variadic argument) is a syntax error,
while `min(a,b)` and `min(*b)` parse. -/
theorem c7_arglist_arity :
    parseOk (parse_shape_spec "min(a)") = false ∧
    parse_shape_spec "min(a,b)" = .ok (ShapeSpec.mk [.functionDim "min"
      [.singleDim (some "a") false false, .singleDim (some "b") false false]]) ∧
    parse_shape_spec "min(*b)" = .ok (ShapeSpec.mk [.functionDim "min"
      [.variadicDim (some "b") false false]]) :=
  ⟨rfl, rfl, rfl⟩

/-- Claim C8: evaluating a named scalar or variadic dim whose name is absent
from the corresponding memo mapping raises an error whose message names
the missing dim and lists the sorted known names; `parse("h")` evaluated
against an empty memo names `h` and lists no known names. -/
theorem c8_unbound_name_diagnostics :
    (∀ (name : String) (memo : Memo), memo.single.lookup name = none →
        DimSpec.evaluate (.singleDim (some name) false false) memo
          = .error ("No value known for " ++ name ++ ". Known values are: "
              ++ pyStrListRepr (sortStrings (memo.single.map Prod.fst)))) ∧
    (∀ (name : String) (memo : Memo), memo.variadic.lookup name = none →
        DimSpec.evaluate (.variadicDim (some name) false false) memo
          = .error ("No value known for *" ++ name ++ ". Known values are: "
              ++ pyStrListRepr (sortStrings (memo.variadic.map Prod.fst)))) ∧
    evalSpec "h" (Memo.mk [] [])
      = .error "No value known for h. Known values are: []" := by
  refine ⟨?_, ?_, rfl⟩
  · intro name memo h
    simp [DimSpec.evaluate, h, DimSpec.repr]
  · intro name memo h
    simp [DimSpec.evaluate, h, DimSpec.repr]
    rw [← String.append_assoc]; rfl

/-- Claim C8 witness: the unbound-name law instantiated at `h` and an empty
memo. -/
theorem c8_unbound_name_diagnostics_witness :
    DimSpec.evaluate (.singleDim (some "h") false false) (Memo.mk [] [])
      = .error "No value known for h. Known values are: []" :=
  c8_unbound_name_diagnostics.1 "h" (Memo.mk [] []) rfl

/-- Claim C9 counterexample: the claim says a `UnaryNeg` whose operand yields
more than one integer raises an evaluation error with no silent
truncation.  But `NegDim.evaluate` indexes `[0]` instead of unpacking:
with `b=(2,3)`, negating the variadic dim `*b` (which evaluates to two
integers) succeeds and returns `(-2,)`, silently dropping the `3`. -/
theorem c9_counterexample_neg_truncates :
    DimSpec.evaluate (.variadicDim (some "b") false false) (Memo.mk [] [("b", [2, 3])])
      = .ok [.int 2, .int 3] ∧
    DimSpec.evaluate (.negDim (.variadicDim (some "b") false false))
      (Memo.mk [] [("b", [2, 3])]) = .ok [.int (-2)] :=
  ⟨rfl, rfl⟩

/-- Claim C9 amended: each operand of a `BinaryOpDim` must evaluate to exactly
one value, else evaluation errors (for either operand); a `NegDim` whose
child yields zero values errors (index out of range), but a child
yielding more than one value is silently truncated: the result is the
negation of the first value. -/
theorem c9_amended_operand_arity :
    (∀ (op : Op) (l r : DimSpec) (memo : Memo) (vs : List PyVal),
        DimSpec.evaluate l memo = .ok vs → vs.length ≠ 1 →
        ∃ e, DimSpec.evaluate (.binaryOpDim op l r) memo = .error e) ∧
    (∀ (op : Op) (l r : DimSpec) (memo : Memo) (x : PyVal) (rvs : List PyVal),
        DimSpec.evaluate l memo = .ok [x] → DimSpec.evaluate r memo = .ok rvs →
        rvs.length ≠ 1 →
        ∃ e, DimSpec.evaluate (.binaryOpDim op l r) memo = .error e) ∧
    (∀ (c : DimSpec) (memo : Memo),
        DimSpec.evaluate c memo = .ok [] →
        DimSpec.evaluate (.negDim c) memo
          = .error "IndexError: tuple index out of range") ∧
    (∀ (c : DimSpec) (memo : Memo) (v : PyVal) (vs : List PyVal),
        DimSpec.evaluate c memo = .ok (v :: vs) →
        DimSpec.evaluate (.negDim c) memo = .ok [pyNeg v]) := by
  refine ⟨?_, ?_, ?_, ?_⟩
  · intro op l r memo vs h hlen
    rcases vs with _ | ⟨x, _ | ⟨y, t⟩⟩
    · exact ⟨"ValueError: operand does not unpack to exactly one value",
        by simp [DimSpec.evaluate, h]⟩
    · simp at hlen
    · exact ⟨"ValueError: operand does not unpack to exactly one value",
        by simp [DimSpec.evaluate, h]⟩
  · intro op l r memo x rvs hl hr hlen
    rcases rvs with _ | ⟨y, _ | ⟨z, t⟩⟩
    · exact ⟨"ValueError: operand does not unpack to exactly one value",
        by simp [DimSpec.evaluate, hl, hr]⟩
    · simp at hlen
    · exact ⟨"ValueError: operand does not unpack to exactly one value",
        by simp [DimSpec.evaluate, hl, hr]⟩
  · intro c memo h
    simp [DimSpec.evaluate, h]
  · intro c memo v vs h
    simp [DimSpec.evaluate, h]

/-- Claim C9 witness: every conjunct of the amended arity law instantiated at a
concrete input. -/
theorem c9_amended_operand_arity_witness :
    (∃ e, DimSpec.evaluate (.binaryOpDim .add (.variadicDim (some "b") false false)
        (.intDim 1 false)) (Memo.mk [] [("b", [2, 3])]) = .error e) ∧
    (∃ e, DimSpec.evaluate (.binaryOpDim .add (.intDim 1 false)
        (.variadicDim (some "b") false false)) (Memo.mk [] [("b", [2, 3])]) = .error e) ∧
    DimSpec.evaluate (.negDim (.variadicDim (some "e") false false))
      (Memo.mk [] [("e", [])]) = .error "IndexError: tuple index out of range" ∧
    DimSpec.evaluate (.negDim (.intDim 5 false)) (Memo.mk [] [])
      = .ok [pyNeg (.int 5)] :=
  ⟨c9_amended_operand_arity.1 .add (.variadicDim (some "b") false false)
      (.intDim 1 false) (Memo.mk [] [("b", [2, 3])]) [.int 2, .int 3] rfl (by decide),
   c9_amended_operand_arity.2.1 .add (.intDim 1 false)
      (.variadicDim (some "b") false false) (Memo.mk [] [("b", [2, 3])]) (.int 1)
      [.int 2, .int 3] rfl rfl (by decide),
   c9_amended_operand_arity.2.2.1 (.variadicDim (some "e") false false)
      (Memo.mk [] [("e", [])]) rfl,
   c9_amended_operand_arity.2.2.2 (.intDim 5 false) (Memo.mk [] []) (.int 5) [] rfl⟩

/-- Claim C10: the `/` operator is Python true division.  On operands that
evaluate to integers `l` and `r` with `r` nonzero it returns the exact
quotient as a float (the `float` constructor of the model), so the
result tuple need not be composed of ints: `"h/2"` with `h=5` yields
`(2.5,)`, with `h=32` it yields `(16.0,)` — a float, not an int.  The
`//` operator is the integer-valued floored variant. -/
theorem c10_truediv_is_true_division :
    (∀ (l r : DimSpec) (memo : Memo) (a b : Int),
        DimSpec.evaluate l memo = .ok [.int a] →
        DimSpec.evaluate r memo = .ok [.int b] → b ≠ 0 →
        DimSpec.evaluate (.binaryOpDim .truediv l r) memo
          = .ok [.float ((a : Rat) / (b : Rat))]) ∧
    (∀ (l r : DimSpec) (memo : Memo) (a b : Int),
        DimSpec.evaluate l memo = .ok [.int a] →
        DimSpec.evaluate r memo = .ok [.int b] → b ≠ 0 →
        DimSpec.evaluate (.binaryOpDim .floordiv l r) memo
          = .ok [.int (Int.fdiv a b)]) ∧
    evalSpec "h/2" (Memo.mk [("h", 5)] []) = .ok [.float ((5 : Rat) / 2)] ∧
    evalSpec "h/2" (Memo.mk [("h", 32)] []) = .ok [.float (16 : Rat)] ∧
    evalSpec "h//2" (Memo.mk [("h", 5)] []) = .ok [.int 2] ∧
    (∀ n : Int, PyVal.float (16 : Rat) ≠ PyVal.int n) := by
  refine ⟨?_, ?_, rfl, ?_, rfl, fun n h => PyVal.noConfusion h⟩
  · intro l r memo a b hl hr hb
    simp [DimSpec.evaluate, hl, hr, Op.fn, PyVal.toRat, hb]
  · intro l r memo a b hl hr hb
    simp [DimSpec.evaluate, hl, hr, Op.fn, PyVal.toRat, hb]
  · have h0 : evalSpec "h/2" (Memo.mk [("h", 32)] [])
        = .ok [.float ((32 : Rat) / 2)] := rfl
    have h16 : (32 : Rat) / 2 = (16 : Rat) := by norm_num
    rw [h0, h16]

/-- Claim C10 witness: true division and floor division instantiated at
`5 / 2` and `5 // 2`. -/
theorem c10_truediv_is_true_division_witness :
    DimSpec.evaluate (.binaryOpDim .truediv (.intDim 5 false) (.intDim 2 false))
      (Memo.mk [] []) = .ok [.float ((5 : Rat) / 2)] ∧
    DimSpec.evaluate (.binaryOpDim .floordiv (.intDim 5 false) (.intDim 2 false))
      (Memo.mk [] []) = .ok [.int (Int.fdiv 5 2)] :=
  ⟨c10_truediv_is_true_division.1 (.intDim 5 false) (.intDim 2 false)
      (Memo.mk [] []) 5 2 rfl rfl (by decide),
   c10_truediv_is_true_division.2.1 (.intDim 5 false) (.intDim 2 false)
      (Memo.mk [] []) 5 2 rfl rfl (by decide)⟩

end Kauldron
